import Mathlib

/-!
# Verification of the podcast artifact-generation pipeline

Shallow embedding of the asynchronous podcast-generation core of this
repository, covering:

* `src/open_notebook/storage/s3.py` — key construction and URI parsing
  (`build_episode_asset_key`, `parse_s3_url`);
* `src/commands/podcast_commands.py` — the generation worker
  (`generate_podcast_command`), modelled as a pure function of its input and
  an environment record capturing the outcomes of every external effect
  (profile lookups, database queries, the synthesis engine, S3 upload,
  file-system operations);
* `src/api/routers/podcasts.py` — the status derivation of the two episode
  read endpoints and the audio streaming endpoint
  (`list_episode_job_status`, `get_episode_job_status`, `streamRun`).

Python truthiness is modelled explicitly wherever the source branches on a
possibly-empty string (`optTruthy`).  Machine-level details that no claim
touches (UTF-8 byte positions, percent-decoding in `file://` URLs, symlink
resolution in `Path.resolve`) are modelled at the character-list level and
noted at each definition.
-/

/-- Python truthiness for an optional string: `None` and `""` are falsy. -/
def optTruthy : Option String → Bool
  | none => false
  | some s => s ≠ ""

/-- `pat in s` for Python strings: contiguous substring test. -/
def strContains (s pat : String) : Bool :=
  decide (pat.data <:+: s.data)

/-- `s.startswith(pre)` for Python strings. -/
def strStartsWith (s pre : String) : Bool :=
  pre.data.isPrefixOf s.data

/-- The suffix of `l` after its last `':'` — the character-level meaning of
Python `s.split(":")[-1]` (which is `s` itself when no colon occurs). -/
def afterLastColon (l : List Char) : List Char :=
  (l.reverse.takeWhile (fun c => c ≠ ':')).reverse

/-- `s.split(":")[-1] if ":" in s else s` from `build_episode_asset_key`
(`src/open_notebook/storage/s3.py` lines 114-115); when `s` has no colon the
two Python branches agree, so the splitting alone is the meaning. -/
def stripTablePrefix (s : String) : String :=
  ⟨afterLastColon s.data⟩

/-- One character of `filename.replace(":", "_").replace(" ", "_")`. -/
def sanitizeChar (c : Char) : Char :=
  if c = ':' then '_' else if c = ' ' then '_' else c

/-- `build_episode_asset_key(user_id, episode_id, filename)` from
`src/open_notebook/storage/s3.py` lines 105-120.  `user_id or "anonymous"`
is Python truthiness (`None` and `""` both yield `"anonymous"`). -/
def build_episode_asset_key (user_id : Option String) (episode_id : String)
    (filename : String) : String :=
  let safe_user : String :=
    match user_id with
    | none => "anonymous"
    | some s => if s = "" then "anonymous" else s
  let clean_episode_id := stripTablePrefix episode_id
  let clean_user_id := stripTablePrefix safe_user
  let safe_filename : String := ⟨filename.data.map sanitizeChar⟩
  "episodes/" ++ clean_user_id ++ "/" ++ clean_episode_id ++ "/" ++ safe_filename

/-- Split a character list at its first `'/'`, the meaning of Python
`remainder.split("/", 1)` when it yields two parts; `none` when no `'/'`
occurs. -/
def splitFirstSlash : List Char → Option (List Char × List Char)
  | [] => none
  | c :: rest =>
    if c = '/' then some ([], rest)
    else (splitFirstSlash rest).map (fun p => (c :: p.1, p.2))

/-- `parse_s3_url(url)` from `src/open_notebook/storage/s3.py` lines 123-132:
split an `s3://bucket/key` url into bucket and key, `(None, None)` when the
prefix is absent or the remainder has no `/`.  Dropping the five prefix
characters models `url.split("s3://", 1)[1]` for a url that starts with
`s3://`. -/
def parse_s3_url (url : String) : Option String × Option String :=
  if strStartsWith url "s3://" = false then (none, none)
  else
    match splitFirstSlash (url.data.drop 5) with
    | none => (none, none)
    | some (b, k) => (some ⟨b⟩, some ⟨k⟩)

example : build_episode_asset_key (some "user:abc") "episode:xyz" "a b.mp3"
    = "episodes/abc/xyz/a_b.mp3" := by decide

example : build_episode_asset_key (some "abc") "episode:xyz" "a b.mp3"
    = "episodes/abc/xyz/a_b.mp3" := by decide

example : parse_s3_url "s3://bucket/some/key.mp3"
    = (some "bucket", some "some/key.mp3") := by decide

example : parse_s3_url "s3://bucketonly" = (none, none) := by decide

example : parse_s3_url "/local/path.mp3" = (none, none) := by decide

/-! ## Data model of the generation worker (`src/commands/podcast_commands.py`)

`RecordId` models a SurrealDB `RecordID` object: its `rid` field is the full
`table:id` string form that Python `str()` returns.  A `RecordID` object is
always truthy, so `Option RecordId` truthiness is `isSome`.
`ensure_record_id` (`src/open_notebook/database/repository.py` lines 42-46)
is modelled as wrapping the string. -/

structure RecordId where
  rid : String
deriving DecidableEq, Repr

def ensure_record_id (s : String) : RecordId := ⟨s⟩

/-- The fields of an episode profile the worker reads
(`EpisodeProfile.get_by_name` result). -/
structure EpisodeProfile where
  name : String
  speaker_config : String
  default_briefing : String
deriving DecidableEq, Repr

/-- The fields of a speaker profile the worker reads. -/
structure SpeakerProfile where
  name : String
deriving DecidableEq, Repr

/-- The persisted episode entity (`PodcastEpisode`), restricted to the fields
the worker and the routers read or write.  The opaque profile-dump dictionary
fields (`episode_profile`, `speaker_profile`) are echoed unchanged by every
code path a claim touches and are omitted.  `transcript` holds the
`{"transcript": ...}` wrapper as an outer `Option` (assigned or not) of the
engine's transcript payload; payloads themselves are opaque strings. -/
structure PodcastEpisode where
  id : RecordId
  name : String
  command : Option RecordId
  audio_file : Option String
  transcript : Option (Option String)
  outline : Option String
  briefing : String
  content : String
  owner : Option RecordId
deriving DecidableEq, Repr

/-- The dictionary returned by the synthesis engine (`create_podcast`),
restricted to the keys the worker reads.  An absent/empty (falsy) result is
`none` at the call site. -/
structure EngineResult where
  transcript : Option String
  outline : Option String
  final_output_file_path : Option String
deriving DecidableEq, Repr

/-- `PodcastGenerationInput` (lines 38-44 of
`src/commands/podcast_commands.py`).  `execution_context`, inherited from
`CommandInput`, is modelled by the command id it carries (`none` when the
context is absent; a context object is always truthy). -/
structure PodcastGenerationInput where
  episode_profile : String
  speaker_profile : String
  episode_name : String
  content : String
  briefing_suffix : Option String
  user_id : Option String
  execution_context : Option RecordId
deriving DecidableEq, Repr

/-- `PodcastGenerationOutput` (lines 47-54).  `processing_time` is the
elapsed wall-clock time in abstract ticks. -/
structure PodcastGenerationOutput where
  success : Bool
  episode_id : Option String
  audio_file_path : Option String
  transcript : Option (Option String)
  outline : Option String
  processing_time : Nat
  error_message : Option String
deriving DecidableEq, Repr

/-- Environment of one worker invocation: the outcome of every external
effect the worker performs, in program order.  `Except.error msg` models the
corresponding Python call raising an exception whose `str()` is `msg`. -/
structure GenEnv where
  /-- `EpisodeProfile.get_by_name(input_data.episode_profile)` result. -/
  episode_profile : Option EpisodeProfile
  /-- `SpeakerProfile.get_by_name(episode_profile.speaker_config)` result. -/
  speaker_profile : Option SpeakerProfile
  /-- Outcome of the episode lookup block (lines 113-134): `Except.error _`
  when the query (or `ensure_record_id`) raised — caught and logged, leaving
  the episode unset; `Except.ok none` when no row matched; `Except.ok (some e)`
  the most recent matching episode. -/
  lookupEpisode : Except String (Option PodcastEpisode)
  /-- Id assigned on save to the fallback-created episode. -/
  newEpisodeId : RecordId
  /-- `create_podcast(...)` outcome: raised, or returned a falsy result
  (`none`), or a result dictionary. -/
  engine : Except String (Option EngineResult)
  /-- `final_audio_path.exists()`. -/
  audioExists : Bool
  /-- `is_s3_configured()`. -/
  s3Configured : Bool
  /-- Raw `S3_BUCKET_NAME`, used by `upload_file` for the canonical URI. -/
  bucketName : String
  /-- `upload_file` outcome: `some msg` when it raised `S3StorageError msg`. -/
  uploadError : Option String
  /-- `final_audio_path.unlink()` outcome: `false` when it raised `OSError`
  (caught and logged). -/
  unlinkOk : Bool
  /-- Final `episode.save()` outcome (line 240): `some msg` when it raised. -/
  finalSaveError : Option String
  /-- `DATA_FOLDER` configuration value. -/
  dataFolder : String
  /-- Process working directory, against which relative paths resolve. -/
  cwd : String
  /-- Wall-clock time elapsed when `time.time() - start_time` is taken. -/
  elapsed : Nat
deriving Repr

/-- Result of one worker invocation: the returned output object, the final
in-memory episode entity (`none` when the run failed before an episode
object existed), and whether deletion of the local audio file was attempted
and succeeded. -/
structure GenRunResult where
  output : PodcastGenerationOutput
  episode : Option PodcastEpisode
  deletionAttempted : Bool
  localFileDeleted : Bool
deriving Repr

/-! ## The generation worker, block by block -/

/-- Lines 106-108: the composed briefing handed to the synthesis engine —
the profile default, extended (when the caller-supplied suffix is truthy)
with a blank line, the literal label `Additional instructions: `, and the
suffix. -/
def composedBriefing (default_briefing : String) (suffix : Option String) :
    String :=
  if optTruthy suffix then
    default_briefing ++ "\n\nAdditional instructions: " ++ suffix.getD ""
  else default_briefing

/-- Model of `pathlib.Path.resolve()` / relative-path resolution: absolute
paths are returned unchanged, relative ones are anchored at the working
directory.  Symlink resolution and `.`/`..` normalization are omitted. -/
def resolvePath (cwd p : String) : String :=
  if strStartsWith p "/" then p else cwd ++ "/" ++ p

/-- Line 186: the deterministic audio location
`<DATA_FOLDER>/podcasts/episodes/<episode_name>/audio/<episode_name>.mp3`. -/
def finalAudioPath (dataFolder episode_name : String) : String :=
  dataFolder ++ "/podcasts/episodes/" ++ episode_name ++ "/audio/"
    ++ episode_name ++ ".mp3"

/-- `Path.name`: the component after the last `/`. -/
def baseName (p : String) : String :=
  ⟨(p.data.reverse.takeWhile (fun c => c ≠ '/')).reverse⟩

/-- Lines 110-134: find the existing episode by `(name, owner)` and, when
found with `execution_context` present and `command` unset, attach the
command id (first-writer-wins).  Any exception inside the block is caught
and logged, leaving the episode unset. -/
def reconcileEpisode (inp : PodcastGenerationInput) (env : GenEnv) :
    Option PodcastEpisode :=
  if optTruthy inp.user_id then
    match env.lookupEpisode with
    | Except.error _ => none
    | Except.ok none => none
    | Except.ok (some e) =>
      if inp.execution_context.isSome && e.command.isNone then
        some { e with command := inp.execution_context }
      else some e
  else none

/-- Lines 136-154: fallback creation of a new episode when none was found
(briefing is the composed briefing, owner wraps the raw user id when
truthy). -/
def fallbackEpisode (inp : PodcastGenerationInput) (env : GenEnv)
    (briefing : String) : PodcastEpisode :=
  { id := env.newEpisodeId
    name := inp.episode_name
    command := inp.execution_context
    audio_file := none
    transcript := none
    outline := none
    briefing := briefing
    content := inp.content
    owner :=
      if optTruthy inp.user_id then some (ensure_record_id (inp.user_id.getD ""))
      else none }

/-- Lines 188-231: artifact placement.  Returns the episode with
`audio_file` assigned, whether `final_audio_path.unlink()` was attempted,
and whether it succeeded. -/
def placeAudio (inp : PodcastGenerationInput) (env : GenEnv)
    (episode : PodcastEpisode) (result : Option EngineResult) :
    PodcastEpisode × Bool × Bool :=
  let final_audio_path := finalAudioPath env.dataFolder inp.episode_name
  if env.audioExists then
    if env.s3Configured then
      let key := build_episode_asset_key inp.user_id episode.id.rid
        (baseName final_audio_path)
      match env.uploadError with
      | none =>
        let storage_url := "s3://" ++ env.bucketName ++ "/" ++ key
        ({ episode with audio_file := some storage_url }, true, env.unlinkOk)
      | some _ =>
        ({ episode with
            audio_file := some (resolvePath env.cwd final_audio_path) },
          false, false)
    else
      ({ episode with
          audio_file := some (resolvePath env.cwd final_audio_path) },
        false, false)
  else
    match result with
    | some r =>
      if optTruthy r.final_output_file_path then
        ({ episode with audio_file := some (r.final_output_file_path.getD "") },
          false, false)
      else
        ({ episode with
            audio_file := some (resolvePath env.cwd final_audio_path) },
          false, false)
    | none =>
      ({ episode with
          audio_file := some (resolvePath env.cwd final_audio_path) },
        false, false)

/-- Lines 232-237: attach transcript/outline from a truthy engine result. -/
def attachResults (episode : PodcastEpisode) (result : Option EngineResult) :
    PodcastEpisode :=
  match result with
  | some r => { episode with transcript := some r.transcript, outline := r.outline }
  | none => episode

/-- Lines 267-271: the remediation hint appended for the known
empty/unparsable-engine-output failure mode. -/
def hintText : String :=
  "\n\nNOTE: This error commonly occurs with GPT-5 models that use extended thinking. The model may be putting all output inside <think> tags, leaving nothing to parse. Try using gpt-4o, gpt-4o-mini, or gpt-4-turbo instead in your episode profile."

/-- Line 264: the pattern detecting that failure mode in an error message. -/
def errPattern (msg : String) : Bool :=
  strContains msg "Invalid json output" || strContains msg "Expecting value"

/-- Lines 257-275: the terminal exception handler — a failure output built
from `str(e)`, with the hint appended exactly when the pattern matches. -/
def failOutput (msg : String) (elapsed : Nat) : PodcastGenerationOutput :=
  let error_msg := if errPattern msg then msg ++ hintText else msg
  { success := false
    episode_id := none
    audio_file_path := none
    transcript := none
    outline := none
    processing_time := elapsed
    error_message := some error_msg }

/-- Lines 110-154 combined: the episode the worker proceeds with — the
reconciled existing one when found, the fallback-created one otherwise. -/
def chosenEpisode (inp : PodcastGenerationInput) (env : GenEnv)
    (ep : EpisodeProfile) : PodcastEpisode :=
  match reconcileEpisode inp env with
  | some e => e
  | none =>
    fallbackEpisode inp env
      (composedBriefing ep.default_briefing inp.briefing_suffix)

/-- `generate_podcast_command` (lines 57-275): the worker's top-level
command.  Every Python `raise` reaching the terminal handler becomes a
`failOutput`; the run result also records the final in-memory episode and
the local-file-deletion trace. -/
def generate_podcast_command (inp : PodcastGenerationInput) (env : GenEnv) :
    GenRunResult :=
  match env.episode_profile with
  | none =>
    { output := failOutput
        ("Episode profile '" ++ inp.episode_profile ++ "' not found")
        env.elapsed
      episode := none, deletionAttempted := false, localFileDeleted := false }
  | some ep =>
    match env.speaker_profile with
    | none =>
      { output := failOutput
          ("Speaker profile '" ++ ep.speaker_config ++ "' not found")
          env.elapsed
        episode := none, deletionAttempted := false, localFileDeleted := false }
    | some _ =>
      let episode := chosenEpisode inp env ep
      match env.engine with
      | Except.error msg =>
        { output := failOutput msg env.elapsed
          episode := some episode
          deletionAttempted := false, localFileDeleted := false }
      | Except.ok result =>
        let placed := placeAudio inp env episode result
        let episode2 := attachResults placed.1 result
        match env.finalSaveError with
        | some msg =>
          { output := failOutput msg env.elapsed
            episode := some episode2
            deletionAttempted := placed.2.1
            localFileDeleted := placed.2.1 && placed.2.2 }
        | none =>
          { output :=
              { success := true
                episode_id := some episode2.id.rid
                audio_file_path := episode2.audio_file
                transcript := episode2.transcript
                outline := episode2.outline
                processing_time := env.elapsed
                error_message := none }
            episode := some episode2
            deletionAttempted := placed.2.1
            localFileDeleted := placed.2.1 && placed.2.2 }

/-! ## Episode status derivation (`src/api/routers/podcasts.py`)

`executorStatus` is the outcome of `await episode.get_job_status()` (an
external executor query): `some s` when it returned state `s`, `none` when
it raised (caught, yielding `"unknown"`).  `episode.command` is a
`RecordID` object (truthy iff present); `episode.audio_file` is a string,
so its truthiness is `optTruthy`. -/

/-- `list_podcast_episodes` status derivation (lines 117-129). -/
def list_episode_job_status (episode : PodcastEpisode)
    (executorStatus : Option String) : String :=
  if episode.command.isSome then
    match executorStatus with
    | some s => s
    | none => "unknown"
  else
    if optTruthy episode.audio_file then "completed" else "pending"

/-- `get_podcast_episode` status derivation (lines 176-184). -/
def get_episode_job_status (episode : PodcastEpisode)
    (executorStatus : Option String) : String :=
  if episode.command.isSome then
    match executorStatus with
    | some s => s
    | none => "unknown"
  else
    if optTruthy episode.audio_file then "completed" else "unknown"

/-! ## Audio streaming endpoint (`src/api/routers/podcasts.py` lines 210-288) -/

/-- `_resolve_audio_path` (lines 40-51).  The `file://` branch strips the
seven scheme characters (`urlparse(...).path` with percent-decoding omitted:
no claim exercises quoted paths); otherwise absolute paths pass through and
relative ones are resolved against the working directory. -/
def resolve_audio_path (cwd audio_file : String) : String :=
  if strStartsWith audio_file "file://" then ⟨audio_file.data.drop 7⟩
  else if strStartsWith audio_file "/" then audio_file
  else resolvePath cwd audio_file

/-- HTTP-level result of the streaming endpoint: a served file or an
`HTTPException(status, detail)`. -/
inductive StreamResult where
  | file (path : String) (filename : String)
  | err (status : Nat) (detail : String)
deriving DecidableEq, Repr

/-- Environment of one `stream_podcast_episode_audio` call. -/
structure StreamEnv where
  /-- `PodcastService.get_episode(episode_id)` outcome. -/
  episodeLookup : Except String PodcastEpisode
  /-- `is_s3_configured()`. -/
  s3Configured : Bool
  /-- Path name handed out by `tempfile.NamedTemporaryFile(delete=False)`. -/
  tempPath : String
  /-- `client.download_file(bucket, key, temp_path)` outcome: `some msg`
  when it raised (network failure, missing object, auth). -/
  downloadError : Option String
  /-- `audio_path.exists()` for the local-disk tier. -/
  localFileExists : Bool
  /-- Process working directory. -/
  cwd : String
deriving Repr

/-- Trace of one streaming call: the HTTP result, whether a temporary file
was created, and whether it was removed before the call returned. -/
structure StreamRun where
  result : StreamResult
  tempCreated : Bool
  tempRemoved : Bool
deriving DecidableEq, Repr

/-- `stream_podcast_episode_audio` (lines 210-288).  On the object-store
tier a temporary file is created after the configuration check; a download
failure removes it and surfaces a 500, a successful download returns a
`FileResponse` over it with `background=None` — no removal.  On the
local tier the resolved path is served or a 404 raised. -/
def stream_podcast_episode_audio (env : StreamEnv) : StreamRun :=
  match env.episodeLookup with
  | Except.error msg =>
    { result := .err 404 ("Episode not found: " ++ msg)
      tempCreated := false, tempRemoved := false }
  | Except.ok episode =>
    if optTruthy episode.audio_file = false then
      { result := .err 404 "Episode has no audio file"
        tempCreated := false, tempRemoved := false }
    else
      let audio := episode.audio_file.getD ""
      if strStartsWith audio "s3://" then
        let key := (parse_s3_url audio).2
        if optTruthy key = false then
          { result := .err 404 "Invalid audio file reference"
            tempCreated := false, tempRemoved := false }
        else if env.s3Configured = false then
          { result := .err 500
              "Failed to retrieve audio from S3: 500: S3 not configured"
            tempCreated := false, tempRemoved := false }
        else
          match env.downloadError with
          | some msg =>
            { result := .err 500 ("Failed to retrieve audio from S3: " ++ msg)
              tempCreated := true, tempRemoved := true }
          | none =>
            { result := .file env.tempPath (episode.name ++ ".mp3")
              tempCreated := true, tempRemoved := false }
      else
        let audio_path := resolve_audio_path env.cwd audio
        if env.localFileExists = false then
          { result := .err 404 "Audio file not found on disk"
            tempCreated := false, tempRemoved := false }
        else
          { result := .file audio_path (baseName audio_path)
            tempCreated := false, tempRemoved := false }

/-! ## Helper lemmas on the key-construction character manipulations -/

theorem takeWhile_append_false {α : Type} (p : α → Bool) (xs ys : List α)
    (c : α) (hc : p c = false) :
    (xs ++ c :: ys).takeWhile p = xs.takeWhile p := by
  induction xs with
  | nil => simp [List.takeWhile_cons, hc]
  | cons a as ih =>
    by_cases h : p a <;> simp [List.takeWhile_cons, h, ih]

theorem afterLastColon_eq_self {l : List Char} (h : ':' ∉ l) :
    afterLastColon l = l := by
  unfold afterLastColon
  rw [List.takeWhile_eq_self_iff.mpr, List.reverse_reverse]
  intro c hc
  have : c ≠ ':' := fun he => h (he ▸ List.mem_reverse.mp hc)
  simpa using this

theorem afterLastColon_append (a b : List Char) :
    afterLastColon (a ++ ':' :: b) = afterLastColon b := by
  unfold afterLastColon
  rw [List.reverse_append, List.reverse_cons, List.append_assoc,
    List.singleton_append, takeWhile_append_false]
  simp

theorem stripTablePrefix_eq_self {s : String} (h : ':' ∉ s.data) :
    stripTablePrefix s = s := by
  unfold stripTablePrefix
  rw [afterLastColon_eq_self h]

theorem stripTablePrefix_concat (p u : String) :
    stripTablePrefix (p ++ ":" ++ u) = stripTablePrefix u := by
  unfold stripTablePrefix
  have hd : (p ++ ":" ++ u).data = p.data ++ ':' :: u.data := by
    simp [String.data_append]
  rw [hd, afterLastColon_append]

theorem map_sanitize_eq_self {l : List Char} (h1 : ':' ∉ l) (h2 : ' ' ∉ l) :
    l.map sanitizeChar = l := by
  induction l with
  | nil => rfl
  | cons c cs ih =>
    simp only [List.mem_cons, not_or] at h1 h2
    have hc : sanitizeChar c = c := by
      unfold sanitizeChar
      rw [if_neg (fun he => h1.1 he.symm), if_neg (fun he => h2.1 he.symm)]
    simp [hc, ih h1.2 h2.2]

theorem append_slash_inj {a : List Char} :
    ∀ {b x y : List Char}, '/' ∉ a → '/' ∉ b →
    a ++ '/' :: x = b ++ '/' :: y → a = b ∧ x = y := by
  induction a with
  | nil =>
    intro b x y _ hb h
    cases b with
    | nil => simpa using h
    | cons d ds =>
      simp only [List.nil_append, List.cons_append] at h
      injection h with h1 _
      rw [← h1] at hb
      exact absurd (List.mem_cons_self _ _) hb
  | cons c cs ih =>
    intro b x y ha hb h
    cases b with
    | nil =>
      simp only [List.nil_append, List.cons_append] at h
      injection h with h1 _
      rw [h1] at ha
      exact absurd (List.mem_cons_self _ _) ha
    | cons d ds =>
      simp only [List.cons_append] at h
      injection h with h1 h2
      have ha' : '/' ∉ cs := fun hm => ha (List.mem_cons_of_mem _ hm)
      have hb' : '/' ∉ ds := fun hm => hb (List.mem_cons_of_mem _ hm)
      obtain ⟨e1, e2⟩ := ih ha' hb' h2
      exact ⟨by rw [h1, e1], e2⟩

theorem strStartsWith_slash_append (d x : String)
    (h : strStartsWith d "/" = true) : strStartsWith (d ++ x) "/" = true := by
  unfold strStartsWith at h ⊢
  rw [String.data_append]
  cases hd : d.data with
  | nil => rw [hd] at h; simp [List.isPrefixOf] at h
  | cons c cs =>
    rw [hd] at h
    simp [List.isPrefixOf] at h ⊢
    exact h

theorem slash_not_s3 (p : String) (h : strStartsWith p "/" = true) :
    strStartsWith p "s3://" = false := by
  unfold strStartsWith at h ⊢
  cases hd : p.data with
  | nil => rw [hd] at h; simp [List.isPrefixOf] at h
  | cons c cs =>
    rw [hd] at h
    simp [List.isPrefixOf] at h
    have hs : ("s3://" : String).data = ['s', '3', ':', '/', '/'] := rfl
    rw [hs, ← h]
    simp [List.isPrefixOf]

theorem build_key_clean (u e f : String) (hu0 : u ≠ "") (hu : ':' ∉ u.data)
    (he : ':' ∉ e.data) (hf1 : ':' ∉ f.data) (hf2 : ' ' ∉ f.data) :
    build_episode_asset_key (some u) e f
      = "episodes/" ++ u ++ "/" ++ e ++ "/" ++ f := by
  show "episodes/" ++ stripTablePrefix (if u = "" then "anonymous" else u)
      ++ "/" ++ stripTablePrefix e ++ "/"
      ++ (⟨f.data.map sanitizeChar⟩ : String)
    = "episodes/" ++ u ++ "/" ++ e ++ "/" ++ f
  rw [if_neg hu0, stripTablePrefix_eq_self hu, stripTablePrefix_eq_self he,
    map_sanitize_eq_self hf1 hf2]

theorem build_key_clean_data (u e f : String) (hu0 : u ≠ "")
    (hu : ':' ∉ u.data) (he : ':' ∉ e.data) (hf1 : ':' ∉ f.data)
    (hf2 : ' ' ∉ f.data) :
    (build_episode_asset_key (some u) e f).data
      = ['e', 'p', 'i', 's', 'o', 'd', 'e', 's', '/']
        ++ (u.data ++ '/' :: (e.data ++ '/' :: f.data)) := by
  rw [build_key_clean u e f hu0 hu he hf1 hf2]
  have h1 : ("/" : String).data = ['/'] := rfl
  have h2 : ("episodes/" : String).data
      = ['e', 'p', 'i', 's', 'o', 'd', 'e', 's', '/'] := rfl
  simp [String.data_append, h1, h2, List.append_assoc]

/-! ## Claims C6 and C7: key construction -/

/-- C6 counterexample input: the colon-prefixed owner `"user:abc"` and the
bare owner `"abc"` are different triples mapping to the same key. -/
theorem C6_counterexample :
    build_episode_asset_key (some "user:abc") "episode:x1" "ep.mp3"
      = build_episode_asset_key (some "abc") "episode:x1" "ep.mp3"
    ∧ (some "user:abc" : Option String) ≠ some "abc" := by
  constructor
  · decide
  · decide

/-- C6 (amended): `build_episode_asset_key` is injective on triples that the
sanitization leaves untouched — a supplied non-empty owner and a target id
containing no colon and no slash, and a filename containing no colon or
space.  (Outside this domain the sanitization collapses inputs:
colon-prefix stripping, `:`/space replacement, and the `anonymous`
substitution all produce collisions.) -/
theorem C6_key_injective_on_sanitized
    (u₁ u₂ e₁ e₂ f₁ f₂ : String)
    (hu₁0 : u₁ ≠ "") (hu₁c : ':' ∉ u₁.data) (hu₁s : '/' ∉ u₁.data)
    (hu₂0 : u₂ ≠ "") (hu₂c : ':' ∉ u₂.data) (hu₂s : '/' ∉ u₂.data)
    (he₁c : ':' ∉ e₁.data) (he₁s : '/' ∉ e₁.data)
    (he₂c : ':' ∉ e₂.data) (he₂s : '/' ∉ e₂.data)
    (hf₁c : ':' ∉ f₁.data) (hf₁sp : ' ' ∉ f₁.data)
    (hf₂c : ':' ∉ f₂.data) (hf₂sp : ' ' ∉ f₂.data)
    (h : build_episode_asset_key (some u₁) e₁ f₁
        = build_episode_asset_key (some u₂) e₂ f₂) :
    u₁ = u₂ ∧ e₁ = e₂ ∧ f₁ = f₂ := by
  have hd := congrArg String.data h
  rw [build_key_clean_data u₁ e₁ f₁ hu₁0 hu₁c he₁c hf₁c hf₁sp,
    build_key_clean_data u₂ e₂ f₂ hu₂0 hu₂c he₂c hf₂c hf₂sp] at hd
  have hd' : u₁.data ++ '/' :: (e₁.data ++ '/' :: f₁.data)
      = u₂.data ++ '/' :: (e₂.data ++ '/' :: f₂.data) :=
    List.append_cancel_left hd
  obtain ⟨h1, h2⟩ := append_slash_inj hu₁s hu₂s hd'
  obtain ⟨h3, h4⟩ := append_slash_inj he₁s he₂s h2
  exact ⟨String.ext h1, String.ext h3, String.ext h4⟩

/-- C6 witness: the injectivity theorem applied at a concrete clean triple. -/
theorem C6_witness :
    ("alice" : String) = "alice" ∧ ("ep1" : String) = "ep1"
      ∧ ("a.mp3" : String) = "a.mp3" :=
  C6_key_injective_on_sanitized "alice" "alice" "ep1" "ep1" "a.mp3" "a.mp3"
    (by decide) (by decide) (by decide) (by decide) (by decide) (by decide)
    (by decide) (by decide) (by decide) (by decide) (by decide) (by decide)
    (by decide) (by decide) rfl

/-- C7: key construction is deterministic (a pure function applied twice to
the same arguments yields syntactically the same key), and stripping a
colon-delimited table prefix from the owner (for a non-empty bare id) or
from the target id leaves the key unchanged. -/
theorem C7_deterministic_and_prefix_insensitive (u e f p q : String)
    (hu : u ≠ "") :
    build_episode_asset_key (some u) e f = build_episode_asset_key (some u) e f
    ∧ build_episode_asset_key (some (p ++ ":" ++ u)) e f
      = build_episode_asset_key (some u) e f
    ∧ build_episode_asset_key (some u) (q ++ ":" ++ e) f
      = build_episode_asset_key (some u) e f := by
  have hne : p ++ ":" ++ u ≠ "" := by
    intro hcon
    have hc := congrArg String.data hcon
    simp [String.data_append] at hc
  refine ⟨rfl, ?_, ?_⟩
  · show "episodes/"
        ++ stripTablePrefix
          (if p ++ ":" ++ u = "" then "anonymous" else p ++ ":" ++ u)
        ++ "/" ++ stripTablePrefix e ++ "/"
        ++ (⟨f.data.map sanitizeChar⟩ : String)
      = "episodes/" ++ stripTablePrefix (if u = "" then "anonymous" else u)
        ++ "/" ++ stripTablePrefix e ++ "/"
        ++ (⟨f.data.map sanitizeChar⟩ : String)
    rw [if_neg hne, if_neg hu, stripTablePrefix_concat]
  · show "episodes/" ++ stripTablePrefix (if u = "" then "anonymous" else u)
        ++ "/" ++ stripTablePrefix (q ++ ":" ++ e) ++ "/"
        ++ (⟨f.data.map sanitizeChar⟩ : String)
      = "episodes/" ++ stripTablePrefix (if u = "" then "anonymous" else u)
        ++ "/" ++ stripTablePrefix e ++ "/"
        ++ (⟨f.data.map sanitizeChar⟩ : String)
    rw [stripTablePrefix_concat]

/-- C7 witness: prefix insensitivity at `owner:abc123` versus `abc123`. -/
theorem C7_witness :
    build_episode_asset_key (some "abc123") "t1" "f.mp3"
      = build_episode_asset_key (some "abc123") "t1" "f.mp3"
    ∧ build_episode_asset_key (some ("owner" ++ ":" ++ "abc123")) "t1" "f.mp3"
      = build_episode_asset_key (some "abc123") "t1" "f.mp3"
    ∧ build_episode_asset_key (some "abc123") ("episode" ++ ":" ++ "t1") "f.mp3"
      = build_episode_asset_key (some "abc123") "t1" "f.mp3" :=
  C7_deterministic_and_prefix_insensitive "abc123" "t1" "f.mp3" "owner"
    "episode" (by decide)

/-! ## Claim C9: composed briefing -/

/-- C9 counterexample: with default briefing `"Base."` and caller suffix
`"Focus on history."` the composed briefing carries the literal label
`Additional instructions: ` after the blank line, so it is not the plain
blank-line concatenation the claim states. -/
theorem C9_counterexample :
    composedBriefing "Base." (some "Focus on history.")
      = "Base.\n\nAdditional instructions: Focus on history."
    ∧ composedBriefing "Base." (some "Focus on history.")
      ≠ "Base." ++ "\n\n" ++ "Focus on history." := by
  constructor
  · decide
  · decide

/-- C9 (amended): with no caller suffix (absent, or empty and hence falsy in
Python) the composed briefing is exactly the profile default; with a
non-empty suffix it is the default, a blank line, the literal label
`Additional instructions: `, and the suffix. -/
theorem C9_composed_briefing (d s : String) :
    composedBriefing d none = d
    ∧ composedBriefing d (some "") = d
    ∧ (s ≠ "" →
        composedBriefing d (some s)
          = d ++ "\n\nAdditional instructions: " ++ s) := by
  refine ⟨rfl, rfl, fun h => ?_⟩
  unfold composedBriefing optTruthy
  simp [h]

/-- C9 witness: the amended composition rule at concrete strings. -/
theorem C9_witness :
    composedBriefing "A" none = "A"
    ∧ composedBriefing "A" (some "") = "A"
    ∧ ("B" ≠ "" →
        composedBriefing "A" (some "B")
          = "A" ++ "\n\nAdditional instructions: " ++ "B") :=
  C9_composed_briefing "A" "B"

/-! ## Claim C1: derived episode status -/

/-- A pending episode: no command reference, no audio reference. -/
def pendingEpisode : PodcastEpisode :=
  { id := ⟨"episode:e1"⟩, name := "ep1", command := none, audio_file := none
    transcript := none, outline := none, briefing := "", content := ""
    owner := none }

/-- C1 counterexample: on an episode with neither a job reference nor an
audio reference, the single-episode endpoint derives `"unknown"`, not the
`"pending"` the claim states for every episode. -/
theorem C1_counterexample :
    get_episode_job_status pendingEpisode none = "unknown"
    ∧ "unknown" ≠ "pending" := by
  constructor
  · decide
  · decide

/-- C1 (amended): both endpoints report the executor-reported state (or
`"unknown"` on query failure) whenever the job reference is set, even with
`audio_file` present, and `"completed"` when only the audio reference is
set; with neither set, the list endpoint reports `"pending"` but the
single-episode endpoint reports `"unknown"`. -/
theorem C1_status_precedence (e : PodcastEpisode) (q : Option String) :
    (e.command.isSome = true →
      list_episode_job_status e q = q.getD "unknown"
      ∧ get_episode_job_status e q = q.getD "unknown")
    ∧ (e.command = none → optTruthy e.audio_file = true →
      list_episode_job_status e q = "completed"
      ∧ get_episode_job_status e q = "completed")
    ∧ (e.command = none → optTruthy e.audio_file = false →
      list_episode_job_status e q = "pending"
      ∧ get_episode_job_status e q = "unknown") := by
  unfold list_episode_job_status get_episode_job_status
  refine ⟨fun h1 => ?_, fun h1 h2 => ?_, fun h1 h2 => ?_⟩
  · rw [if_pos h1, if_pos h1]
    cases q <;> simp [Option.getD]
  · rw [h1]
    simp [h2]
  · rw [h1]
    simp [h2]

/-- C1 witness: the amended precedence at concrete inputs — a running job
dominates a stale audio reference, and a bare pending episode splits the
two endpoints. -/
theorem C1_witness :
    (list_episode_job_status
        { pendingEpisode with
            command := some ⟨"command:c1"⟩, audio_file := some "/a.mp3" }
        (some "running") = (some "running" : Option String).getD "unknown"
      ∧ get_episode_job_status
        { pendingEpisode with
            command := some ⟨"command:c1"⟩, audio_file := some "/a.mp3" }
        (some "running") = (some "running" : Option String).getD "unknown")
    ∧ (list_episode_job_status pendingEpisode none = "pending"
      ∧ get_episode_job_status pendingEpisode none = "unknown") :=
  ⟨(C1_status_precedence
      { pendingEpisode with
          command := some ⟨"command:c1"⟩, audio_file := some "/a.mp3" }
      (some "running")).1 rfl,
    (C1_status_precedence pendingEpisode none).2.2 rfl rfl⟩

/-! ## Worker run lemmas -/

theorem attachResults_audio (e : PodcastEpisode) (r : Option EngineResult) :
    (attachResults e r).audio_file = e.audio_file := by
  cases r <;> rfl

theorem attachResults_command (e : PodcastEpisode) (r : Option EngineResult) :
    (attachResults e r).command = e.command := by
  cases r <;> rfl

theorem attachResults_id (e : PodcastEpisode) (r : Option EngineResult) :
    (attachResults e r).id = e.id := by
  cases r <;> rfl

theorem placeAudio_command (inp : PodcastGenerationInput) (env : GenEnv)
    (e : PodcastEpisode) (r : Option EngineResult) :
    (placeAudio inp env e r).1.command = e.command := by
  unfold placeAudio
  repeat' split
  all_goals rfl

theorem placeAudio_id (inp : PodcastGenerationInput) (env : GenEnv)
    (e : PodcastEpisode) (r : Option EngineResult) :
    (placeAudio inp env e r).1.id = e.id := by
  unfold placeAudio
  repeat' split
  all_goals rfl

theorem placeAudio_upload_fail (inp : PodcastGenerationInput) (env : GenEnv)
    (e : PodcastEpisode) (r : Option EngineResult) (msg : String)
    (hex : env.audioExists = true) (hs3 : env.s3Configured = true)
    (hup : env.uploadError = some msg) :
    placeAudio inp env e r
      = ({ e with audio_file := some (resolvePath env.cwd
            (finalAudioPath env.dataFolder inp.episode_name)) },
          false, false) := by
  unfold placeAudio
  simp [hex, hs3, hup]

theorem placeAudio_upload_ok (inp : PodcastGenerationInput) (env : GenEnv)
    (e : PodcastEpisode) (r : Option EngineResult)
    (hex : env.audioExists = true) (hs3 : env.s3Configured = true)
    (hup : env.uploadError = none) :
    placeAudio inp env e r
      = ({ e with audio_file := some ("s3://" ++ env.bucketName ++ "/"
            ++ build_episode_asset_key inp.user_id e.id.rid
              (baseName (finalAudioPath env.dataFolder inp.episode_name))) },
          true, env.unlinkOk) := by
  unfold placeAudio
  simp [hex, hs3, hup]

theorem placeAudio_not_attempted (inp : PodcastGenerationInput) (env : GenEnv)
    (e : PodcastEpisode) (r : Option EngineResult)
    (h : (placeAudio inp env e r).2.1 = true) :
    env.audioExists = true ∧ env.s3Configured = true
      ∧ env.uploadError = none := by
  unfold placeAudio at h
  by_cases hex : env.audioExists
  · by_cases hs3 : env.s3Configured
    · cases hup : env.uploadError with
      | none => exact ⟨hex, hs3, rfl⟩
      | some m => rw [hup] at h; simp [hex, hs3] at h
    · simp [hex, hs3] at h
  · simp [hex] at h
    cases r with
    | none => simp at h
    | some rr =>
      by_cases ht : optTruthy rr.final_output_file_path = true <;> simp [ht] at h

theorem gen_episode_profileFail (inp : PodcastGenerationInput) (env : GenEnv)
    (h : env.episode_profile = none ∨ env.speaker_profile = none) :
    (generate_podcast_command inp env).episode = none := by
  unfold generate_podcast_command
  rcases h with h | h
  · simp [h]
  · cases hep : env.episode_profile <;> simp [h]

theorem gen_episode_engineFail (inp : PodcastGenerationInput) (env : GenEnv)
    (ep : EpisodeProfile) (sp : SpeakerProfile) (msg : String)
    (hep : env.episode_profile = some ep)
    (hsp : env.speaker_profile = some sp)
    (heng : env.engine = Except.error msg) :
    (generate_podcast_command inp env).episode
      = some (chosenEpisode inp env ep)
    ∧ (generate_podcast_command inp env).deletionAttempted = false := by
  unfold generate_podcast_command
  simp [hep, hsp, heng]

theorem gen_run_engineOk (inp : PodcastGenerationInput) (env : GenEnv)
    (ep : EpisodeProfile) (sp : SpeakerProfile) (res : Option EngineResult)
    (hep : env.episode_profile = some ep)
    (hsp : env.speaker_profile = some sp)
    (heng : env.engine = Except.ok res) :
    (generate_podcast_command inp env).episode
      = some (attachResults
          (placeAudio inp env (chosenEpisode inp env ep) res).1 res)
    ∧ (generate_podcast_command inp env).deletionAttempted
      = (placeAudio inp env (chosenEpisode inp env ep) res).2.1
    ∧ (generate_podcast_command inp env).localFileDeleted
      = ((placeAudio inp env (chosenEpisode inp env ep) res).2.1
        && (placeAudio inp env (chosenEpisode inp env ep) res).2.2) := by
  unfold generate_podcast_command
  simp only [hep, hsp, heng]
  cases hsave : env.finalSaveError <;> simp [hsave]

/-- Every run of the worker either returns a `failOutput`-shaped result at
the observed elapsed time or a success result. -/
theorem gen_output_shape (inp : PodcastGenerationInput) (env : GenEnv) :
    (∃ m, (generate_podcast_command inp env).output = failOutput m env.elapsed)
    ∨ ((generate_podcast_command inp env).output.success = true
      ∧ (generate_podcast_command inp env).output.error_message = none
      ∧ (generate_podcast_command inp env).output.processing_time
        = env.elapsed) := by
  unfold generate_podcast_command
  cases hep : env.episode_profile with
  | none => exact Or.inl ⟨_, rfl⟩
  | some ep =>
    cases hsp : env.speaker_profile with
    | none => exact Or.inl ⟨_, rfl⟩
    | some sp =>
      cases heng : env.engine with
      | error msg => exact Or.inl ⟨_, rfl⟩
      | ok result =>
        cases hsave : env.finalSaveError with
        | some msg => exact Or.inl ⟨_, rfl⟩
        | none => exact Or.inr ⟨rfl, rfl, rfl⟩

/-! ## Claim C2: the worker's terminal boundary -/

/-- C2: the worker's top-level command is a total function returning a
structured result object on every input (no exception escapes the embedded
control flow); every failure result carries the observed elapsed wall-clock
time and an error message that is the underlying exception text with the
remediation hint appended exactly when that text contains
`Invalid json output` or `Expecting value` (`errPattern`); success results
carry no error message. -/
theorem C2_worker_terminal_boundary (inp : PodcastGenerationInput)
    (env : GenEnv) :
    ((generate_podcast_command inp env).output.success = false →
      (generate_podcast_command inp env).output.processing_time = env.elapsed
      ∧ ∃ base,
        (generate_podcast_command inp env).output.error_message
          = some (if errPattern base then base ++ hintText else base))
    ∧ ((generate_podcast_command inp env).output.success = true →
      (generate_podcast_command inp env).output.error_message = none
      ∧ (generate_podcast_command inp env).output.processing_time
        = env.elapsed) := by
  rcases gen_output_shape inp env with ⟨m, hm⟩ | ⟨h1, h2, h3⟩
  · constructor
    · intro _
      rw [hm]
      exact ⟨rfl, ⟨m, rfl⟩⟩
    · intro hs
      rw [hm] at hs
      simp [failOutput] at hs
  · constructor
    · intro hs
      rw [hs] at h1
      cases h1
    · intro _
      exact ⟨h2, h3⟩

/-- Shared worker-input fixture: a normal submission by user `user:u1`. -/
def genInp0 : PodcastGenerationInput :=
  { episode_profile := "tech", speaker_profile := "duo", episode_name := "ep1"
    content := "c", briefing_suffix := none, user_id := some "user:u1"
    execution_context := some ⟨"command:j1"⟩ }

/-- Shared worker-environment fixture: profiles found, the pending episode
found by the lookup, the engine succeeding with a bare result, audio file
present, S3 not configured, saves succeeding. -/
def genEnv0 : GenEnv :=
  { episode_profile := some ⟨"tech", "duo", "Base."⟩
    speaker_profile := some ⟨"duo"⟩
    lookupEpisode := Except.ok (some pendingEpisode)
    newEpisodeId := ⟨"episode:new"⟩
    engine := Except.ok (some ⟨some "t", some "o", none⟩)
    audioExists := true
    s3Configured := false
    bucketName := "bkt"
    uploadError := none
    unlinkOk := true
    finalSaveError := none
    dataFolder := "/mydata"
    cwd := "/app"
    elapsed := 7 }

/-- Worker-environment fixture for a raising engine: `create_podcast`
raised with a JSON-parse failure text. -/
def genEnvEngineFail : GenEnv :=
  { genEnv0 with engine := Except.error "Expecting value: line 1 column 1" }

/-- C2 witness: a run whose engine raises with a JSON-parse failure text
yields the structured failure with the hint-appending message shape. -/
theorem C2_witness :
    (generate_podcast_command genInp0 genEnvEngineFail).output.processing_time
      = 7
    ∧ ∃ base,
      (generate_podcast_command genInp0 genEnvEngineFail).output.error_message
        = some (if errPattern base then base ++ hintText else base) :=
  (C2_worker_terminal_boundary genInp0 genEnvEngineFail).1 rfl

/-! ## Claim C3: S3 upload failure falls back to the local path -/

/-- C3: when object storage is configured, the synthesized audio exists at
the deterministic path, and the upload raises `S3StorageError`, the worker
records the resolved absolute local path (which is not an `s3://` URI) as
the episode's `audio_file` and never attempts to delete the local file.
The data folder being an absolute path makes the resolved path the
deterministic path itself. -/
theorem C3_upload_failure_fallback (inp : PodcastGenerationInput)
    (env : GenEnv) (ep : EpisodeProfile) (sp : SpeakerProfile)
    (res : Option EngineResult) (msg : String)
    (hep : env.episode_profile = some ep)
    (hsp : env.speaker_profile = some sp)
    (heng : env.engine = Except.ok res)
    (hex : env.audioExists = true)
    (hs3 : env.s3Configured = true)
    (hup : env.uploadError = some msg)
    (habs : strStartsWith env.dataFolder "/" = true) :
    (generate_podcast_command inp env).deletionAttempted = false
    ∧ (generate_podcast_command inp env).localFileDeleted = false
    ∧ (generate_podcast_command inp env).episode.map (fun e => e.audio_file)
      = some (some (finalAudioPath env.dataFolder inp.episode_name))
    ∧ strStartsWith (finalAudioPath env.dataFolder inp.episode_name) "s3://"
      = false := by
  have habs2 : strStartsWith (finalAudioPath env.dataFolder inp.episode_name)
      "/" = true := by
    unfold finalAudioPath
    exact strStartsWith_slash_append _ _ (strStartsWith_slash_append _ _
      (strStartsWith_slash_append _ _ (strStartsWith_slash_append _ _
        (strStartsWith_slash_append _ _ habs))))
  have hres : resolvePath env.cwd
      (finalAudioPath env.dataFolder inp.episode_name)
      = finalAudioPath env.dataFolder inp.episode_name := by
    unfold resolvePath
    rw [if_pos habs2]
  obtain ⟨hE, hA, hD⟩ := gen_run_engineOk inp env ep sp res hep hsp heng
  rw [placeAudio_upload_fail inp env (chosenEpisode inp env ep) res msg
    hex hs3 hup] at hE hA hD
  refine ⟨by rw [hA], by rw [hD]; rfl, ?_, slash_not_s3 _ habs2⟩
  rw [hE]
  simp [attachResults_audio, hres]

/-- Worker-environment fixture: S3 configured but the upload raising. -/
def genEnvUploadFail : GenEnv :=
  { genEnv0 with
      s3Configured := true
      uploadError := some "AccessDenied" }

/-- C3 witness: the upload-failure fallback at the concrete fixture. -/
theorem C3_witness :
    (generate_podcast_command genInp0 genEnvUploadFail).deletionAttempted
      = false
    ∧ (generate_podcast_command genInp0 genEnvUploadFail).localFileDeleted
      = false
    ∧ (generate_podcast_command genInp0 genEnvUploadFail).episode.map
        (fun e => e.audio_file)
      = some (some (finalAudioPath "/mydata" "ep1"))
    ∧ strStartsWith (finalAudioPath "/mydata" "ep1") "s3://" = false :=
  C3_upload_failure_fallback genInp0 genEnvUploadFail ⟨"tech", "duo", "Base."⟩
    ⟨"duo"⟩ (some ⟨some "t", some "o", none⟩) "AccessDenied"
    rfl rfl rfl rfl rfl rfl (by decide)

/-! ## Claim C8: the job reference is set at most once -/

theorem chosenEpisode_command_found (inp : PodcastGenerationInput)
    (env : GenEnv) (ep : EpisodeProfile) (e : PodcastEpisode)
    (hfound : env.lookupEpisode = Except.ok (some e))
    (huser : optTruthy inp.user_id = true) :
    (chosenEpisode inp env ep).command
      = match e.command with
        | some c => some c
        | none => inp.execution_context := by
  unfold chosenEpisode reconcileEpisode
  rw [huser, hfound]
  cases hc : e.command <;> cases hctx : inp.execution_context <;> simp [hc, hctx]

theorem gen_episode_command_eq (inp : PodcastGenerationInput) (env : GenEnv)
    (e' : PodcastEpisode)
    (h : (generate_podcast_command inp env).episode = some e') :
    ∃ ep, env.episode_profile = some ep
      ∧ e'.command = (chosenEpisode inp env ep).command := by
  unfold generate_podcast_command at h
  cases hep : env.episode_profile with
  | none => rw [hep] at h; simp at h
  | some ep =>
    rw [hep] at h
    cases hsp : env.speaker_profile with
    | none => rw [hsp] at h; simp at h
    | some sp =>
      rw [hsp] at h
      cases heng : env.engine with
      | error m =>
        rw [heng] at h
        simp at h
        exact ⟨ep, rfl, by rw [← h]⟩
      | ok res =>
        rw [heng] at h
        cases hsave : env.finalSaveError with
        | some m =>
          rw [hsave] at h
          simp at h
          exact ⟨ep, rfl, by
            rw [← h, attachResults_command, placeAudio_command]⟩
        | none =>
          rw [hsave] at h
          simp at h
          exact ⟨ep, rfl, by
            rw [← h, attachResults_command, placeAudio_command]⟩

/-- C8: when the lookup finds an existing episode for a truthy user id, a
worker run never overwrites a set job reference — every episode object the
run ends with keeps the stored command id — and attaches the current job
identifier exactly when the stored command is unset. -/
theorem C8_job_ref_first_writer_wins (inp : PodcastGenerationInput)
    (env : GenEnv) (e : PodcastEpisode)
    (hfound : env.lookupEpisode = Except.ok (some e))
    (huser : optTruthy inp.user_id = true) :
    (∀ c, e.command = some c →
      ∀ e', (generate_podcast_command inp env).episode = some e' →
        e'.command = some c)
    ∧ (e.command = none →
      ∀ e', (generate_podcast_command inp env).episode = some e' →
        e'.command = inp.execution_context) := by
  constructor
  · intro c hc e' he'
    obtain ⟨ep, _, hcmd⟩ := gen_episode_command_eq inp env e' he'
    rw [hcmd, chosenEpisode_command_found inp env ep e hfound huser, hc]
  · intro hc e' he'
    obtain ⟨ep, _, hcmd⟩ := gen_episode_command_eq inp env e' he'
    rw [hcmd, chosenEpisode_command_found inp env ep e hfound huser, hc]

/-- An episode that already carries a job reference. -/
def claimedEpisode : PodcastEpisode :=
  { pendingEpisode with command := some ⟨"command:old"⟩ }

/-- Worker-environment fixture: the lookup finds an episode whose job
reference is already set. -/
def genEnvClaimed : GenEnv :=
  { genEnv0 with lookupEpisode := Except.ok (some claimedEpisode) }

/-- C8 witness: a run over an already-claimed episode keeps `command:old`
even though the current job is `command:j1`. -/
theorem C8_witness :
    (generate_podcast_command genInp0 genEnvClaimed).episode.map
      (fun e => e.command) = some (some ⟨"command:old"⟩) := by
  cases he : (generate_podcast_command genInp0 genEnvClaimed).episode with
  | none => exact absurd he (by decide)
  | some e' =>
    have hc := (C8_job_ref_first_writer_wins genInp0 genEnvClaimed
      claimedEpisode rfl rfl).1 ⟨"command:old"⟩ rfl e' he
    simp [hc]

/-! ## Claim C10: successful upload records the URI and drops the local copy -/

theorem gen_deletion_only_if (inp : PodcastGenerationInput) (env : GenEnv)
    (h : (generate_podcast_command inp env).deletionAttempted = true) :
    env.audioExists = true ∧ env.s3Configured = true
      ∧ env.uploadError = none := by
  unfold generate_podcast_command at h
  cases hep : env.episode_profile with
  | none => rw [hep] at h; simp at h
  | some ep =>
    rw [hep] at h
    cases hsp : env.speaker_profile with
    | none => rw [hsp] at h; simp at h
    | some sp =>
      rw [hsp] at h
      cases heng : env.engine with
      | error m => rw [heng] at h; simp at h
      | ok res =>
        rw [heng] at h
        cases hsave : env.finalSaveError with
        | some m =>
          rw [hsave] at h
          exact placeAudio_not_attempted inp env _ res h
        | none =>
          rw [hsave] at h
          exact placeAudio_not_attempted inp env _ res h

/-- C10: when object storage is configured, the audio exists at the
deterministic path and the upload succeeds, the worker records the
`s3://<bucket>/<key>` URI as the episode's `audio_file` and attempts to
delete the local file, the deletion succeeding exactly when the `unlink`
call does (its `OSError` is swallowed); and, over any environment, deletion
is only ever attempted when storage is configured and the upload succeeded,
so the local file is retained in every failure or unconfigured mode. -/
theorem C10_upload_success_deletes_local (inp : PodcastGenerationInput)
    (env : GenEnv) (ep : EpisodeProfile) (sp : SpeakerProfile)
    (res : Option EngineResult)
    (hep : env.episode_profile = some ep)
    (hsp : env.speaker_profile = some sp)
    (heng : env.engine = Except.ok res)
    (hex : env.audioExists = true)
    (hs3 : env.s3Configured = true)
    (hup : env.uploadError = none) :
    ((generate_podcast_command inp env).episode.map (fun e => e.audio_file)
      = some (some ("s3://" ++ env.bucketName ++ "/"
          ++ build_episode_asset_key inp.user_id
            (chosenEpisode inp env ep).id.rid
            (baseName (finalAudioPath env.dataFolder inp.episode_name)))))
    ∧ (generate_podcast_command inp env).deletionAttempted = true
    ∧ (generate_podcast_command inp env).localFileDeleted = env.unlinkOk
    ∧ ∀ env₂ : GenEnv,
        (generate_podcast_command inp env₂).deletionAttempted = true →
        env₂.s3Configured = true ∧ env₂.uploadError = none := by
  obtain ⟨hE, hA, hD⟩ := gen_run_engineOk inp env ep sp res hep hsp heng
  rw [placeAudio_upload_ok inp env (chosenEpisode inp env ep) res
    hex hs3 hup] at hE hA hD
  refine ⟨?_, by rw [hA], by rw [hD]; rfl, ?_⟩
  · rw [hE]
    simp [attachResults_audio]
  · intro env₂ h₂
    obtain ⟨_, hb, hc⟩ := gen_deletion_only_if inp env₂ h₂
    exact ⟨hb, hc⟩

/-- Worker-environment fixture: S3 configured and the upload succeeding. -/
def genEnvS3Ok : GenEnv :=
  { genEnv0 with s3Configured := true }

/-- C10 witness: the successful-upload behaviour at the concrete fixture. -/
theorem C10_witness :
    ((generate_podcast_command genInp0 genEnvS3Ok).episode.map
        (fun e => e.audio_file)
      = some (some ("s3://" ++ "bkt" ++ "/"
          ++ build_episode_asset_key (some "user:u1")
            (chosenEpisode genInp0 genEnvS3Ok ⟨"tech", "duo", "Base."⟩).id.rid
            (baseName (finalAudioPath "/mydata" "ep1")))))
    ∧ (generate_podcast_command genInp0 genEnvS3Ok).deletionAttempted = true
    ∧ (generate_podcast_command genInp0 genEnvS3Ok).localFileDeleted = true
    ∧ ∀ env₂ : GenEnv,
        (generate_podcast_command genInp0 env₂).deletionAttempted = true →
        env₂.s3Configured = true ∧ env₂.uploadError = none :=
  C10_upload_success_deletes_local genInp0 genEnvS3Ok ⟨"tech", "duo", "Base."⟩
    ⟨"duo"⟩ (some ⟨some "t", some "o", none⟩) rfl rfl rfl rfl rfl rfl

/-! ## Claims C4 and C5: the audio streaming endpoint -/

/-- Whether a stream result is the 404-equivalent the spec names. -/
def isNotFoundResult : StreamResult → Bool
  | StreamResult.err 404 _ => true
  | _ => false

/-- An episode whose artifact lives in the object store. -/
def s3Episode : PodcastEpisode :=
  { pendingEpisode with audio_file := some "s3://bkt/episodes/u1/e1/ep1.mp3" }

/-- Streaming-environment fixture: S3-backed episode, S3 configured, the
download succeeding. -/
def streamEnvOk : StreamEnv :=
  { episodeLookup := Except.ok s3Episode
    s3Configured := true
    tempPath := "/tmp/tmpabc.mp3"
    downloadError := none
    localFileExists := false
    cwd := "/app" }

/-- C4 counterexample: a successful object-store download creates a
temporary file, serves it, and never removes it — the temp file outlives
the retrieval call. -/
theorem C4_counterexample :
    (stream_podcast_episode_audio streamEnvOk).tempCreated = true
    ∧ (stream_podcast_episode_audio streamEnvOk).tempRemoved = false
    ∧ (stream_podcast_episode_audio streamEnvOk).result
      = StreamResult.file "/tmp/tmpabc.mp3" "ep1.mp3" := by
  refine ⟨?_, ?_, ?_⟩ <;> decide

/-- C4 (amended): the temporary file created for an object-store-backed
streaming request is removed before the call returns on the download-failure
path, but on the success path it is handed to the response with no cleanup
and is not removed by the retrieval call. -/
theorem C4_temp_file_scope (env : StreamEnv) :
    ((stream_podcast_episode_audio env).tempCreated = true →
      env.downloadError.isSome = true →
      (stream_podcast_episode_audio env).tempRemoved = true)
    ∧ ((stream_podcast_episode_audio env).tempCreated = true →
      env.downloadError = none →
      (stream_podcast_episode_audio env).tempRemoved = false)
    ∧ ((stream_podcast_episode_audio env).tempCreated = false →
      (stream_podcast_episode_audio env).tempRemoved = false) := by
  have h : (stream_podcast_episode_audio env).tempRemoved
      = ((stream_podcast_episode_audio env).tempCreated
        && env.downloadError.isSome) := by
    unfold stream_podcast_episode_audio
    repeat' split
    all_goals try rfl
    all_goals simp_all [apply_ite]
  refine ⟨fun h1 h2 => ?_, fun h1 h2 => ?_, fun h1 => ?_⟩
  · rw [h, h1, h2]
    rfl
  · rw [h, h1, h2]
    rfl
  · rw [h, h1]
    rfl

/-- Streaming-environment fixture: S3-backed episode but the download
raising (missing object). -/
def streamEnvDownloadFail : StreamEnv :=
  { streamEnvOk with downloadError := some "NoSuchKey" }

/-- C4 witness: the amended scope rule at the two concrete fixtures — the
failure path removes the temp file, the success path does not. -/
theorem C4_witness :
    (stream_podcast_episode_audio streamEnvDownloadFail).tempRemoved = true
    ∧ (stream_podcast_episode_audio streamEnvOk).tempRemoved = false :=
  ⟨(C4_temp_file_scope streamEnvDownloadFail).1 rfl rfl,
    (C4_temp_file_scope streamEnvOk).2.1 rfl rfl⟩

/-- C5 counterexample: an S3-backed episode whose object is missing (the
download raises) yields a 500, not the 404-equivalent the claim states for
every missing referenced object. -/
theorem C5_counterexample :
    (stream_podcast_episode_audio streamEnvDownloadFail).result
      = StreamResult.err 500 "Failed to retrieve audio from S3: NoSuchKey"
    ∧ isNotFoundResult
        (stream_podcast_episode_audio streamEnvDownloadFail).result
      = false := by
  refine ⟨?_, ?_⟩ <;> decide

/-- C5 (amended): the streaming endpoint returns a 404 when the episode
lookup fails, when the episode has no (truthy) artifact reference, when a
local-tier file is missing, and when an `s3://` reference has no parsable
key; but a missing object on the object-store tier (a failing download)
surfaces as a 500, not a 404. -/
theorem C5_not_found_handling (env : StreamEnv) :
    (∀ m, env.episodeLookup = Except.error m →
      (stream_podcast_episode_audio env).result
        = StreamResult.err 404 ("Episode not found: " ++ m))
    ∧ (∀ e, env.episodeLookup = Except.ok e →
      optTruthy e.audio_file = false →
      (stream_podcast_episode_audio env).result
        = StreamResult.err 404 "Episode has no audio file")
    ∧ (∀ e a, env.episodeLookup = Except.ok e → e.audio_file = some a →
      optTruthy e.audio_file = true → strStartsWith a "s3://" = false →
      env.localFileExists = false →
      (stream_podcast_episode_audio env).result
        = StreamResult.err 404 "Audio file not found on disk")
    ∧ (∀ e a, env.episodeLookup = Except.ok e → e.audio_file = some a →
      optTruthy e.audio_file = true → strStartsWith a "s3://" = true →
      optTruthy (parse_s3_url a).2 = false →
      (stream_podcast_episode_audio env).result
        = StreamResult.err 404 "Invalid audio file reference")
    ∧ (∀ e a m, env.episodeLookup = Except.ok e → e.audio_file = some a →
      optTruthy e.audio_file = true → strStartsWith a "s3://" = true →
      optTruthy (parse_s3_url a).2 = true → env.s3Configured = true →
      env.downloadError = some m →
      (stream_podcast_episode_audio env).result
        = StreamResult.err 500 ("Failed to retrieve audio from S3: " ++ m)) := by
  refine ⟨?_, ?_, ?_, ?_, ?_⟩
  · intro m hm
    unfold stream_podcast_episode_audio
    rw [hm]
  · intro e he ht
    unfold stream_podcast_episode_audio
    rw [he]
    simp [ht]
  · intro e a he ha ht hs3 hex
    unfold stream_podcast_episode_audio
    rw [he]
    rw [ha] at ht
    simp [ha, ht, hs3, hex]
  · intro e a he ha ht hs3 hkey
    unfold stream_podcast_episode_audio
    rw [he]
    rw [ha] at ht
    simp [ha, ht, hs3, hkey]
  · intro e a m he ha ht hs3 hkey hcfg hdl
    unfold stream_podcast_episode_audio
    rw [he]
    rw [ha] at ht
    simp [ha, ht, hs3, hkey, hcfg, hdl]

/-- Streaming-environment fixture: a local-tier episode whose file is
missing from disk. -/
def streamEnvLocalMissing : StreamEnv :=
  { streamEnvOk with
      episodeLookup := Except.ok
        { pendingEpisode with audio_file := some "/mydata/gone.mp3" }
      localFileExists := false }

/-- C5 witness: the amended 404/500 split at concrete fixtures. -/
theorem C5_witness :
    (stream_podcast_episode_audio streamEnvLocalMissing).result
      = StreamResult.err 404 "Audio file not found on disk"
    ∧ (stream_podcast_episode_audio streamEnvDownloadFail).result
      = StreamResult.err 500 "Failed to retrieve audio from S3: NoSuchKey" :=
  ⟨(C5_not_found_handling streamEnvLocalMissing).2.2.1
      { pendingEpisode with audio_file := some "/mydata/gone.mp3" }
      "/mydata/gone.mp3" rfl rfl (by decide) (by decide) rfl,
    (C5_not_found_handling streamEnvDownloadFail).2.2.2.2 s3Episode
      "s3://bkt/episodes/u1/e1/ep1.mp3" "NoSuchKey" rfl rfl (by decide)
      (by decide) (by decide) rfl rfl⟩
